import Mathlib

/-
  Verification development for the real-time audio path in Source/Audio.cpp
  (ring buffer, jitter-compensated UDP receiver, spatial mixer callback,
  session lifecycle).  Machine integers are modelled as Nat/Int; sample
  stores are total functions from indices to sample values, with all
  writes made explicit through writeRange.
-/

/- Constants from Audio.cpp. -/

def BUFFER_LENGTH_BYTES : Nat := 1024

def BUFFER_LENGTH_SAMPLES : Nat := BUFFER_LENGTH_BYTES / 2

def PACKET_LENGTH_BYTES : Nat := 1024

def PACKET_LENGTH_SAMPLES : Nat := PACKET_LENGTH_BYTES / 2

def PHASE_DELAY_AT_90 : Nat := 20

def RING_BUFFER_FRAMES : Nat := 4

def RING_BUFFER_SIZE_SAMPLES : Nat := RING_BUFFER_FRAMES * BUFFER_LENGTH_SAMPLES

def JITTER_BUFFER_LENGTH_MSECS : Nat := 3

def SAMPLE_RATE : Nat := 22050

def NUM_AUDIO_SOURCES : Nat := 2

/-- jitterBufferSamples as computed in receiveAudioViaUDP:
JITTER_BUFFER_LENGTH_MSECS * (SAMPLE_RATE / 1000), C integer division. -/
def jitterBufferSamples : Nat := JITTER_BUFFER_LENGTH_MSECS * (SAMPLE_RATE / 1000)

theorem jitterBufferSamples_eq : jitterBufferSamples = 66 := rfl

theorem BUFFER_LENGTH_SAMPLES_eq : BUFFER_LENGTH_SAMPLES = 512 := rfl

theorem PACKET_LENGTH_SAMPLES_eq : PACKET_LENGTH_SAMPLES = 512 := rfl

theorem RING_BUFFER_SIZE_SAMPLES_eq : RING_BUFFER_SIZE_SAMPLES = 2048 := rfl

/- The ring buffer.  The store is a total function from sample index to
sample value; the cursors are indices into [0, RING_BUFFER_SIZE_SAMPLES).
endOfLastWrite = none models the NULL write-frontier pointer. -/

structure AudioRingBuffer where
  buffer : Nat → Int
  nextOutput : Nat
  endOfLastWrite : Option Nat

/-- Distance (mod capacity) from a read-cursor index n to a frontier index e. -/
def diffPos (e n : Nat) : Nat :=
  (e + RING_BUFFER_SIZE_SAMPLES - n) % RING_BUFFER_SIZE_SAMPLES

/-- Modelled from the spec: AudioRingBuffer::diffLastWriteNextOutput is
declared by the AudioRingBuffer class whose source is not in the repository
snapshot.  Per the Ring Buffer contract it returns the distance (mod
capacity) from nextOutput to endOfLastWrite; both call sites in Audio.cpp
only use it when endOfLastWrite is set, so the unset case is fixed to 0. -/
def diffLastWriteNextOutput (rb : AudioRingBuffer) : Nat :=
  match rb.endOfLastWrite with
  | none => 0
  | some e => diffPos e rb.nextOutput

/-- Modelled from the spec: AudioRingBuffer::bufferOverlap is declared by
the AudioRingBuffer class whose source is not in the repository snapshot.
Per the Ring Buffer contract it returns how many of the next len samples
written starting at index pos would spill past the end of the store back
to its start, and 0 if none. -/
def bufferOverlap (pos len : Nat) : Nat :=
  if RING_BUFFER_SIZE_SAMPLES < pos + len then pos + len - RING_BUFFER_SIZE_SAMPLES else 0

/-- One memcpy/memset: overwrite store indices [start, start+len) with
src 0, src 1, ..., leaving everything else unchanged. -/
def writeRange (store : Nat → Int) (start : Nat) (src : Nat → Int) (len : Nat) : Nat → Int :=
  fun i => if start ≤ i ∧ i < start + len then src (i - start) else store i

/- The jitter-compensated receiver (receiveAudioViaUDP, per-packet body). -/

/-- needsJitterBuffer as computed at Audio.cpp:226-231: true when the write
frontier is NULL, or when diffLastWriteNextOutput() exceeds
RING_BUFFER_SIZE_SAMPLES - PACKET_LENGTH_SAMPLES. -/
def needsJitterBuffer (rb : AudioRingBuffer) : Bool :=
  rb.endOfLastWrite.isNone ||
    decide (RING_BUFFER_SIZE_SAMPLES - PACKET_LENGTH_SAMPLES < diffLastWriteNextOutput rb)

/-- copyToPointer as set at Audio.cpp:233-242: the store start when a jitter
buffer is needed, otherwise the current write frontier. -/
def copyToPointer (rb : AudioRingBuffer) : Nat :=
  if needsJitterBuffer rb then 0 else rb.endOfLastWrite.getD 0

/-- bufferSampleOverlap as set at Audio.cpp:227-242: stays 0 when a jitter
buffer is needed, otherwise bufferOverlap of the frontier and the packet. -/
def bufferSampleOverlap (rb : AudioRingBuffer) : Nat :=
  if needsJitterBuffer rb then 0
  else bufferOverlap (copyToPointer rb) PACKET_LENGTH_SAMPLES

/-- The ring-buffer update performed for one received packet
(receiveAudioViaUDP loop body, Audio.cpp:226-269).  The three branches are
the cushion injection, the direct append, and the wrapped (overlapping)
append; the wrapped tail copy reads receivedData starting at index
bufferSampleOverlap, exactly as the memcpy at Audio.cpp:265 does. -/
def receiveAudioViaUDP (rb : AudioRingBuffer) (receivedData : Nat → Int) : AudioRingBuffer :=
  let copyTo := copyToPointer rb
  let ov := bufferSampleOverlap rb
  if ov = 0 then
    if needsJitterBuffer rb then
      { buffer := writeRange (writeRange rb.buffer copyTo (fun _ => 0) jitterBufferSamples)
          (copyTo + jitterBufferSamples) receivedData PACKET_LENGTH_SAMPLES
        nextOutput := rb.nextOutput
        endOfLastWrite := some (PACKET_LENGTH_SAMPLES + jitterBufferSamples) }
    else
      { buffer := writeRange rb.buffer copyTo receivedData PACKET_LENGTH_SAMPLES
        nextOutput := rb.nextOutput
        endOfLastWrite := some (copyTo + PACKET_LENGTH_SAMPLES) }
  else
    { buffer := writeRange
        (writeRange rb.buffer copyTo receivedData (PACKET_LENGTH_SAMPLES - ov))
        0 (fun j => receivedData (ov + j)) ov
      nextOutput := rb.nextOutput
      endOfLastWrite := some ov }

theorem receive_nextOutput (rb : AudioRingBuffer) (pkt : Nat → Int) :
    (receiveAudioViaUDP rb pkt).nextOutput = rb.nextOutput := by
  by_cases hov : bufferSampleOverlap rb = 0 <;>
    by_cases hj : needsJitterBuffer rb <;>
      simp [receiveAudioViaUDP, hov, hj]

theorem receive_endOfLastWrite (rb : AudioRingBuffer) (pkt : Nat → Int) :
    (receiveAudioViaUDP rb pkt).endOfLastWrite =
      if needsJitterBuffer rb then some (PACKET_LENGTH_SAMPLES + jitterBufferSamples)
      else if bufferSampleOverlap rb = 0 then some (copyToPointer rb + PACKET_LENGTH_SAMPLES)
      else some (bufferSampleOverlap rb) := by
  by_cases hj : needsJitterBuffer rb
  · have hov : bufferSampleOverlap rb = 0 := by simp [bufferSampleOverlap, hj]
    simp [receiveAudioViaUDP, hov, hj]
  · by_cases hov : bufferSampleOverlap rb = 0
    · simp [receiveAudioViaUDP, hov, hj]
    · simp [receiveAudioViaUDP, hov, hj]

/- The real-time callback, ECHO_SERVER_TEST branch (audioCallback,
Audio.cpp:92-131): drain one frame from the ring buffer with
silent-tail padding, advance the read cursor with wraparound reset,
and detect starvation. -/

/-- silentTail as computed at Audio.cpp:104-112, from the frontier index e
and the read-cursor index n (raw pointer comparison, no modulo). -/
def silentTailOf (e n : Nat) : Nat :=
  if n < e ∧ e - n < BUFFER_LENGTH_SAMPLES then BUFFER_LENGTH_SAMPLES - (e - n) else 0

/-- Advance of nextOutput at Audio.cpp:117-121: add one frame, and reset to
the store start when the cursor reaches the end of the store. -/
def advanceOutput (n : Nat) : Nat :=
  if n + BUFFER_LENGTH_SAMPLES = RING_BUFFER_SIZE_SAMPLES then 0
  else n + BUFFER_LENGTH_SAMPLES

structure CallbackResult where
  ringBuffer : AudioRingBuffer
  outputLeft : Nat → Int
  outputRight : Nat → Int
  starved : Bool

/-- The ring-buffer draining part of audioCallback (Audio.cpp:92-131).
With the frontier unset the zeroed queue buffer is emitted unchanged;
otherwise one frame minus the silent tail is copied from nextOutput, the
cursor advances with wraparound, and starvation unsets the frontier.  The
queue buffer is duplicated onto both output channels. -/
def audioCallback (rb : AudioRingBuffer) : CallbackResult :=
  match rb.endOfLastWrite with
  | none =>
    { ringBuffer := rb
      outputLeft := fun _ => 0
      outputRight := fun _ => 0
      starved := false }
  | some e =>
    let silentTail := silentTailOf e rb.nextOutput
    let queueBuffer : Nat → Int := fun i =>
      if i < BUFFER_LENGTH_SAMPLES - silentTail then rb.buffer (rb.nextOutput + i) else 0
    let next2 := advanceOutput rb.nextOutput
    let starved :=
      decide (diffLastWriteNextOutput
        { buffer := rb.buffer, nextOutput := next2, endOfLastWrite := some e }
          < BUFFER_LENGTH_SAMPLES)
    { ringBuffer :=
        { buffer := rb.buffer
          nextOutput := next2
          endOfLastWrite := if starved then none else some e }
      outputLeft := queueBuffer
      outputRight := queueBuffer
      starved := starved }

/- Cursor invariant satisfied by every reachable ring-buffer state: the
read cursor is frame-aligned inside the store, and the write frontier,
when set, lies inside the store at jitterBufferSamples past a frame
boundary (every frontier the receiver ever writes is 578, a prior
frontier plus 512, or a wrap overlap, all congruent to 66 mod 512). -/

def CursorInv (rb : AudioRingBuffer) : Prop :=
  rb.nextOutput < RING_BUFFER_SIZE_SAMPLES ∧
  rb.nextOutput % BUFFER_LENGTH_SAMPLES = 0 ∧
  ∀ e, rb.endOfLastWrite = some e →
    e < RING_BUFFER_SIZE_SAMPLES ∧ e % BUFFER_LENGTH_SAMPLES = jitterBufferSamples

theorem cursorInv_initial (store : Nat → Int) :
    CursorInv { buffer := store, nextOutput := 0, endOfLastWrite := none } := by
  refine ⟨?_, ?_, ?_⟩
  · show (0:Nat) < RING_BUFFER_SIZE_SAMPLES
    decide
  · show (0:Nat) % BUFFER_LENGTH_SAMPLES = 0
    decide
  · intro e he
    simp at he

theorem cursorInv_receive (rb : AudioRingBuffer) (pkt : Nat → Int)
    (h : CursorInv rb) : CursorInv (receiveAudioViaUDP rb pkt) := by
  obtain ⟨h1, h2, h3⟩ := h
  refine ⟨by rw [receive_nextOutput]; exact h1, by rw [receive_nextOutput]; exact h2, ?_⟩
  intro e he
  rw [receive_endOfLastWrite] at he
  by_cases hj : needsJitterBuffer rb
  · simp [hj] at he
    subst he
    constructor <;> decide
  · obtain ⟨w, hw⟩ : ∃ w, rb.endOfLastWrite = some w := by
      cases hweq : rb.endOfLastWrite with
      | none => simp [needsJitterBuffer, hweq] at hj
      | some w => exact ⟨w, rfl⟩
    obtain ⟨hw1, hw2⟩ := h3 w hw
    have hcp : copyToPointer rb = w := by simp [copyToPointer, hj, hw]
    have hovEq : bufferSampleOverlap rb =
        if 2048 < w + 512 then w + 512 - 2048 else 0 := by
      simp only [bufferSampleOverlap, hj, bufferOverlap, hcp,
        RING_BUFFER_SIZE_SAMPLES_eq, PACKET_LENGTH_SAMPLES_eq]
      simp
    rw [RING_BUFFER_SIZE_SAMPLES_eq] at hw1 ⊢
    rw [BUFFER_LENGTH_SAMPLES_eq, jitterBufferSamples_eq] at hw2 ⊢
    by_cases hlt : 2048 < w + 512
    · have hovv : bufferSampleOverlap rb = w + 512 - 2048 := by
        rw [hovEq]
        simp [hlt]
      have hovne : ¬ bufferSampleOverlap rb = 0 := by
        rw [hovv]
        omega
      rw [if_neg hj, if_neg hovne, hovv] at he
      have he2 : w + 512 - 2048 = e := by simpa using he
      omega
    · have hovv : bufferSampleOverlap rb = 0 := by
        rw [hovEq]
        simp [hlt]
      rw [if_neg hj, if_pos hovv, hcp, PACKET_LENGTH_SAMPLES_eq] at he
      have he2 : w + 512 = e := by simpa using he
      omega

theorem cursorInv_callback (rb : AudioRingBuffer)
    (h : CursorInv rb) : CursorInv (audioCallback rb).ringBuffer := by
  obtain ⟨h1, h2, h3⟩ := h
  rw [RING_BUFFER_SIZE_SAMPLES_eq] at h1
  rw [BUFFER_LENGTH_SAMPLES_eq] at h2
  cases hweq : rb.endOfLastWrite with
  | none =>
    refine ⟨?_, ?_, ?_⟩ <;> simp only [audioCallback, hweq]
    · rw [RING_BUFFER_SIZE_SAMPLES_eq]
      exact h1
    · rw [BUFFER_LENGTH_SAMPLES_eq]
      exact h2
    · intro w hw
      simp at hw
  | some e =>
    refine ⟨?_, ?_, ?_⟩
    · simp only [audioCallback, hweq, advanceOutput,
        BUFFER_LENGTH_SAMPLES_eq, RING_BUFFER_SIZE_SAMPLES_eq]
      split <;> omega
    · simp only [audioCallback, hweq, advanceOutput,
        BUFFER_LENGTH_SAMPLES_eq, RING_BUFFER_SIZE_SAMPLES_eq]
      split <;> omega
    · intro w hw
      simp only [audioCallback, hweq] at hw
      split at hw
      · exact absurd hw (by simp)
      · have hew : e = w := by simpa using hw
        subst hew
        exact h3 e hweq

/- Helper lemmas about single writes and receiver steps, shared by the
claims below. -/

theorem writeRange_in {store : Nat → Int} {start : Nat} {src : Nat → Int} {len i : Nat}
    (h1 : start ≤ i) (h2 : i < start + len) :
    writeRange store start src len i = src (i - start) := by
  simp [writeRange, h1, h2]

theorem writeRange_out {store : Nat → Int} {start : Nat} {src : Nat → Int} {len i : Nat}
    (h : i < start ∨ start + len ≤ i) :
    writeRange store start src len i = store i := by
  rcases h with h | h <;> simp [writeRange] <;> omega

theorem needsJitterBuffer_none {rb : AudioRingBuffer}
    (he : rb.endOfLastWrite = none) : needsJitterBuffer rb = true := by
  simp [needsJitterBuffer, he]

theorem needsJitterBuffer_true_of {rb : AudioRingBuffer} {n e : Nat}
    (hn : rb.nextOutput = n) (he : rb.endOfLastWrite = some e)
    (hd : RING_BUFFER_SIZE_SAMPLES - PACKET_LENGTH_SAMPLES < diffPos e n) :
    needsJitterBuffer rb = true := by
  simp [needsJitterBuffer, he, diffLastWriteNextOutput, hn, hd]

theorem needsJitterBuffer_false_of {rb : AudioRingBuffer} {n e : Nat}
    (hn : rb.nextOutput = n) (he : rb.endOfLastWrite = some e)
    (hd : diffPos e n ≤ RING_BUFFER_SIZE_SAMPLES - PACKET_LENGTH_SAMPLES) :
    needsJitterBuffer rb = false := by
  simp [needsJitterBuffer, he, diffLastWriteNextOutput, hn]
  omega

theorem receive_cushion_zeros {rb : AudioRingBuffer} (pkt : Nat → Int)
    (hj : needsJitterBuffer rb = true) :
    ∀ i, i < jitterBufferSamples → (receiveAudioViaUDP rb pkt).buffer i = 0 := by
  intro i hi
  have hov : bufferSampleOverlap rb = 0 := by simp [bufferSampleOverlap, hj]
  have hcp : copyToPointer rb = 0 := by simp [copyToPointer, hj]
  have hb : (receiveAudioViaUDP rb pkt).buffer =
      writeRange (writeRange rb.buffer 0 (fun _ => 0) jitterBufferSamples)
        jitterBufferSamples pkt PACKET_LENGTH_SAMPLES := by
    simp [receiveAudioViaUDP, hov, hj, hcp]
  rw [hb, writeRange_out (Or.inl hi), writeRange_in (Nat.zero_le i) (by simpa using hi)]

theorem receive_cushion_packet {rb : AudioRingBuffer} (pkt : Nat → Int)
    (hj : needsJitterBuffer rb = true) :
    ∀ j, j < PACKET_LENGTH_SAMPLES →
      (receiveAudioViaUDP rb pkt).buffer (jitterBufferSamples + j) = pkt j := by
  intro j hjlt
  have hov : bufferSampleOverlap rb = 0 := by simp [bufferSampleOverlap, hj]
  have hcp : copyToPointer rb = 0 := by simp [copyToPointer, hj]
  have hb : (receiveAudioViaUDP rb pkt).buffer =
      writeRange (writeRange rb.buffer 0 (fun _ => 0) jitterBufferSamples)
        jitterBufferSamples pkt PACKET_LENGTH_SAMPLES := by
    simp [receiveAudioViaUDP, hov, hj, hcp]
  rw [hb, writeRange_in (Nat.le_add_right _ _) (by omega)]
  simp

theorem receive_cushion_frontier {rb : AudioRingBuffer} (pkt : Nat → Int)
    (hj : needsJitterBuffer rb = true) :
    (receiveAudioViaUDP rb pkt).endOfLastWrite =
      some (PACKET_LENGTH_SAMPLES + jitterBufferSamples) := by
  rw [receive_endOfLastWrite, if_pos hj]

theorem receive_append_head {rb : AudioRingBuffer} (pkt : Nat → Int) {e : Nat}
    (he : rb.endOfLastWrite = some e) (hj : needsJitterBuffer rb = false) :
    ∀ j, j < PACKET_LENGTH_SAMPLES - bufferSampleOverlap rb →
      (receiveAudioViaUDP rb pkt).buffer (e + j) = pkt j := by
  intro j hjlt
  have hjj : ¬ needsJitterBuffer rb = true := by simp [hj]
  have hcp : copyToPointer rb = e := by simp [copyToPointer, hjj, he]
  by_cases hov : bufferSampleOverlap rb = 0
  · have hb : (receiveAudioViaUDP rb pkt).buffer =
        writeRange rb.buffer e pkt PACKET_LENGTH_SAMPLES := by
      simp [receiveAudioViaUDP, hov, hjj, hcp]
    rw [hov] at hjlt
    rw [hb, writeRange_in (Nat.le_add_right _ _) (by omega)]
    simp
  · have hovEq : bufferSampleOverlap rb = e + PACKET_LENGTH_SAMPLES - RING_BUFFER_SIZE_SAMPLES
        ∧ RING_BUFFER_SIZE_SAMPLES < e + PACKET_LENGTH_SAMPLES := by
      simp only [bufferSampleOverlap, hjj, if_false, Bool.false_eq_true, hcp, bufferOverlap]
      constructor
      · split <;> simp_all
      · by_contra hc
        apply hov
        simp only [bufferSampleOverlap, hjj, if_false, Bool.false_eq_true, hcp, bufferOverlap]
        split <;> omega
    have hb : (receiveAudioViaUDP rb pkt).buffer =
        writeRange
          (writeRange rb.buffer e pkt (PACKET_LENGTH_SAMPLES - bufferSampleOverlap rb))
          0 (fun j => pkt (bufferSampleOverlap rb + j)) (bufferSampleOverlap rb) := by
      simp [receiveAudioViaUDP, hov, hjj, hcp]
    have hePos : bufferSampleOverlap rb ≤ e := by
      rw [PACKET_LENGTH_SAMPLES_eq] at hovEq
      rw [RING_BUFFER_SIZE_SAMPLES_eq] at hovEq
      omega
    rw [hb, writeRange_out (Or.inr (by omega)), writeRange_in (Nat.le_add_right _ _) (by omega)]
    simp

theorem receive_append_frontier {rb : AudioRingBuffer} (pkt : Nat → Int) {e : Nat}
    (he : rb.endOfLastWrite = some e) (hj : needsJitterBuffer rb = false)
    (hov : bufferSampleOverlap rb = 0) :
    (receiveAudioViaUDP rb pkt).endOfLastWrite = some (e + PACKET_LENGTH_SAMPLES) := by
  have hjj : ¬ needsJitterBuffer rb = true := by simp [hj]
  have hcp : copyToPointer rb = e := by simp [copyToPointer, hjj, he]
  rw [receive_endOfLastWrite, if_neg hjj, if_pos hov, hcp]

/-- C1: the spec claims a boundary-crossing packet is split so that the
head lands at the end of the store and the remaining tail samples land at
the store start, reproducing the original 512 samples on read-back.  The
code is wrong: the wrap tail memcpy at Audio.cpp:265 reads the packet from
index bufferSampleOverlap instead of from index
PACKET_LENGTH_SAMPLES - bufferSampleOverlap.  Concretely, with the
reachable state nextOutput = 512, endOfLastWrite = 1602 and the packet
pkt n = n (k = 446 head samples, overlap 66), the frontier and the head
are as claimed, but store index 0 receives pkt 66 = 66 instead of the
claimed pkt 446 = 446. -/
theorem C1_wrap_tail_bug :
    (receiveAudioViaUDP
        { buffer := fun _ => -1, nextOutput := 512, endOfLastWrite := some 1602 }
        (fun n => (n : Int))).endOfLastWrite = some 66 ∧
    (receiveAudioViaUDP
        { buffer := fun _ => -1, nextOutput := 512, endOfLastWrite := some 1602 }
        (fun n => (n : Int))).buffer 1602 = 0 ∧
    (receiveAudioViaUDP
        { buffer := fun _ => -1, nextOutput := 512, endOfLastWrite := some 1602 }
        (fun n => (n : Int))).buffer 2047 = 445 ∧
    (receiveAudioViaUDP
        { buffer := fun _ => -1, nextOutput := 512, endOfLastWrite := some 1602 }
        (fun n => (n : Int))).buffer 0 = 66 ∧
    ¬ (receiveAudioViaUDP
        { buffer := fun _ => -1, nextOutput := 512, endOfLastWrite := some 1602 }
        (fun n => (n : Int))).buffer 0 = 446 := by
  refine ⟨?_, ?_, ?_, ?_, ?_⟩ <;> decide

/-- C3 counterexample: in the resynchronization case (frontier set to 1602,
read cursor 0, distance 1602 > 1536) the claim says the cushion zero-fill
begins at the current write frontier; the code instead resets to the store
start (Audio.cpp:233-236).  After the receive, store index 1602 still holds
its old value 7 (no zero written there), the cushion zeros and the packet
sit at the store start, and the frontier is 578. -/
theorem C3_cushion_origin_counterexample :
    needsJitterBuffer
      { buffer := fun _ => 7, nextOutput := 0, endOfLastWrite := some 1602 } = true ∧
    ¬ (receiveAudioViaUDP
        { buffer := fun _ => 7, nextOutput := 0, endOfLastWrite := some 1602 }
        (fun _ => 5)).buffer 1602 = 0 ∧
    (receiveAudioViaUDP
        { buffer := fun _ => 7, nextOutput := 0, endOfLastWrite := some 1602 }
        (fun _ => 5)).buffer 1602 = 7 ∧
    (receiveAudioViaUDP
        { buffer := fun _ => 7, nextOutput := 0, endOfLastWrite := some 1602 }
        (fun _ => 5)).buffer 0 = 0 ∧
    (receiveAudioViaUDP
        { buffer := fun _ => 7, nextOutput := 0, endOfLastWrite := some 1602 }
        (fun _ => 5)).buffer 66 = 5 ∧
    (receiveAudioViaUDP
        { buffer := fun _ => 7, nextOutput := 0, endOfLastWrite := some 1602 }
        (fun _ => 5)).endOfLastWrite = some 578 := by
  refine ⟨?_, ?_, ?_, ?_, ?_, ?_⟩ <;> decide

/-- C3 amended: whenever a packet triggers cushion injection (empty buffer
or resynchronization on a near-full buffer alike), the zero-fill of
jitterBufferSamples begins at the store start, the packet is copied
immediately after the cushion, and the frontier is set to cushion-length +
frameSize past the store start. -/
theorem C3_cushion_starts_at_store_start (rb : AudioRingBuffer) (pkt : Nat → Int)
    (hj : needsJitterBuffer rb = true) :
    (∀ i, i < jitterBufferSamples → (receiveAudioViaUDP rb pkt).buffer i = 0) ∧
    (∀ j, j < PACKET_LENGTH_SAMPLES →
      (receiveAudioViaUDP rb pkt).buffer (jitterBufferSamples + j) = pkt j) ∧
    (receiveAudioViaUDP rb pkt).endOfLastWrite =
      some (PACKET_LENGTH_SAMPLES + jitterBufferSamples) :=
  ⟨receive_cushion_zeros pkt hj, receive_cushion_packet pkt hj,
    receive_cushion_frontier pkt hj⟩

/-- C3 witness: the amended claim applied to a concrete empty buffer. -/
theorem C3_cushion_origin_witness :
    (receiveAudioViaUDP { buffer := fun _ => 7, nextOutput := 0, endOfLastWrite := none }
      (fun _ => 5)).buffer 3 = 0 ∧
    (receiveAudioViaUDP { buffer := fun _ => 7, nextOutput := 0, endOfLastWrite := none }
      (fun _ => 5)).buffer (jitterBufferSamples + 8) = 5 ∧
    (receiveAudioViaUDP { buffer := fun _ => 7, nextOutput := 0, endOfLastWrite := none }
      (fun _ => 5)).endOfLastWrite = some (PACKET_LENGTH_SAMPLES + jitterBufferSamples) :=
  ⟨(C3_cushion_starts_at_store_start _ _ (by decide)).1 3 (by decide),
   (C3_cushion_starts_at_store_start _ _ (by decide)).2.1 8 (by decide),
   (C3_cushion_starts_at_store_start _ _ (by decide)).2.2⟩

/-- C6: a received packet triggers cushion injection exactly when the write
frontier is unset or the distance from the read cursor to the frontier
exceeds RING_BUFFER_SIZE_SAMPLES - PACKET_LENGTH_SAMPLES = 1536; when it
does, jitterBufferSamples zeros are actually written, and otherwise the
packet write begins at the frontier (head samples appended there, and with
no overlap the frontier advances by exactly one packet). -/
theorem C6_cushion_iff (rb : AudioRingBuffer) (pkt : Nat → Int) :
    (needsJitterBuffer rb = true ↔
      (rb.endOfLastWrite = none ∨
        RING_BUFFER_SIZE_SAMPLES - PACKET_LENGTH_SAMPLES < diffLastWriteNextOutput rb)) ∧
    (needsJitterBuffer rb = true →
      ∀ i, i < jitterBufferSamples → (receiveAudioViaUDP rb pkt).buffer i = 0) ∧
    (∀ e, rb.endOfLastWrite = some e → needsJitterBuffer rb = false →
      copyToPointer rb = e ∧
      (∀ j, j < PACKET_LENGTH_SAMPLES - bufferSampleOverlap rb →
        (receiveAudioViaUDP rb pkt).buffer (e + j) = pkt j) ∧
      (bufferSampleOverlap rb = 0 →
        (receiveAudioViaUDP rb pkt).endOfLastWrite = some (e + PACKET_LENGTH_SAMPLES))) := by
  refine ⟨?_, fun hj => receive_cushion_zeros pkt hj, ?_⟩
  · simp [needsJitterBuffer, Option.isNone_iff_eq_none]
  · intro e he hj
    have hjj : ¬ needsJitterBuffer rb = true := by simp [hj]
    exact ⟨by simp [copyToPointer, hjj, he],
      receive_append_head pkt he hj,
      fun hov => receive_append_frontier pkt he hj hov⟩

/-- C6 witness: the iff and the append at a concrete state with frontier 578
and read cursor 0, and the cushion zero-write at a concrete empty state. -/
theorem C6_cushion_iff_witness :
    needsJitterBuffer { buffer := fun _ => 0, nextOutput := 0, endOfLastWrite := some 578 } = false ∧
    (receiveAudioViaUDP { buffer := fun _ => 0, nextOutput := 0, endOfLastWrite := some 578 }
      (fun _ => 9)).buffer (578 + 5) = 9 ∧
    (receiveAudioViaUDP { buffer := fun _ => 0, nextOutput := 0, endOfLastWrite := some 578 }
      (fun _ => 9)).endOfLastWrite = some (578 + PACKET_LENGTH_SAMPLES) ∧
    (receiveAudioViaUDP { buffer := fun _ => 0, nextOutput := 0, endOfLastWrite := none }
      (fun _ => 9)).buffer 0 = 0 := by
  refine ⟨?_, ?_, ?_, ?_⟩
  · have h := (C6_cushion_iff
      { buffer := fun _ => 0, nextOutput := 0, endOfLastWrite := some 578 } (fun _ => 9)).1
    cases hb : needsJitterBuffer
        { buffer := fun _ => 0, nextOutput := 0, endOfLastWrite := some 578 }
    · rfl
    · rcases h.mp hb with hc | hc
      · simp at hc
      · revert hc
        decide
  · exact ((C6_cushion_iff _ (fun _ => 9)).2.2 578 rfl (by decide)).2.1 5 (by decide)
  · exact ((C6_cushion_iff _ (fun _ => 9)).2.2 578 rfl (by decide)).2.2 (by decide)
  · exact (C6_cushion_iff _ (fun _ => 9)).2.1 (by decide) 0 (by decide)

/-- C7: whenever a cushion is injected, exactly jitterBufferSamples =
3 * (22050/1000) = 66 zero samples are written immediately preceding the
freshly copied packet; starting from an empty buffer with no reader
activity the frontier is 578 = jitterBufferSamples + 512 after the first
packet, advances by exactly 512 for the second and third packets
(578, 1090, 1602), and the fourth packet, which would wrap past capacity
2048, triggers cushion resynchronization instead (frontier back to 578). -/
theorem C7_cushion_exactness_and_scenario :
    (∀ (rb : AudioRingBuffer) (pkt : Nat → Int), needsJitterBuffer rb = true →
      (∀ i, i < jitterBufferSamples → (receiveAudioViaUDP rb pkt).buffer i = 0) ∧
      (∀ j, j < PACKET_LENGTH_SAMPLES →
        (receiveAudioViaUDP rb pkt).buffer (jitterBufferSamples + j) = pkt j)) ∧
    jitterBufferSamples = JITTER_BUFFER_LENGTH_MSECS * (SAMPLE_RATE / 1000) ∧
    jitterBufferSamples + PACKET_LENGTH_SAMPLES = 578 ∧
    (∀ (store p1 p2 p3 p4 : Nat → Int),
      (receiveAudioViaUDP
        { buffer := store, nextOutput := 0, endOfLastWrite := none } p1).endOfLastWrite
        = some 578 ∧
      (receiveAudioViaUDP (receiveAudioViaUDP
        { buffer := store, nextOutput := 0, endOfLastWrite := none } p1) p2).endOfLastWrite
        = some 1090 ∧
      (receiveAudioViaUDP (receiveAudioViaUDP (receiveAudioViaUDP
        { buffer := store, nextOutput := 0, endOfLastWrite := none } p1) p2) p3).endOfLastWrite
        = some 1602 ∧
      needsJitterBuffer (receiveAudioViaUDP (receiveAudioViaUDP (receiveAudioViaUDP
        { buffer := store, nextOutput := 0, endOfLastWrite := none } p1) p2) p3) = true ∧
      (receiveAudioViaUDP (receiveAudioViaUDP (receiveAudioViaUDP (receiveAudioViaUDP
        { buffer := store, nextOutput := 0, endOfLastWrite := none } p1) p2) p3) p4).endOfLastWrite
        = some 578) := by
  refine ⟨fun rb pkt hj => ⟨receive_cushion_zeros pkt hj, receive_cushion_packet pkt hj⟩,
    rfl, by decide, ?_⟩
  intro store p1 p2 p3 p4
  have hj0 : needsJitterBuffer
      { buffer := store, nextOutput := 0, endOfLastWrite := none } = true :=
    needsJitterBuffer_none rfl
  have e1 : (receiveAudioViaUDP
      { buffer := store, nextOutput := 0, endOfLastWrite := none } p1).endOfLastWrite
      = some 578 := by
    rw [receive_cushion_frontier p1 hj0]
    decide
  have n1 : (receiveAudioViaUDP
      { buffer := store, nextOutput := 0, endOfLastWrite := none } p1).nextOutput = 0 :=
    receive_nextOutput _ _
  have hj1 := needsJitterBuffer_false_of n1 e1 (by decide)
  have hjj1 : ¬ needsJitterBuffer (receiveAudioViaUDP
      { buffer := store, nextOutput := 0, endOfLastWrite := none } p1) = true := by
    simp [hj1]
  have cp1 : copyToPointer (receiveAudioViaUDP
      { buffer := store, nextOutput := 0, endOfLastWrite := none } p1) = 578 := by
    unfold copyToPointer
    rw [if_neg hjj1, e1]
    rfl
  have ov1 : bufferSampleOverlap (receiveAudioViaUDP
      { buffer := store, nextOutput := 0, endOfLastWrite := none } p1) = 0 := by
    unfold bufferSampleOverlap
    rw [if_neg hjj1, cp1]
    decide
  have e2 : (receiveAudioViaUDP (receiveAudioViaUDP
      { buffer := store, nextOutput := 0, endOfLastWrite := none } p1) p2).endOfLastWrite
      = some 1090 := by
    rw [receive_append_frontier p2 e1 hj1 ov1]
    decide
  have n2 : (receiveAudioViaUDP (receiveAudioViaUDP
      { buffer := store, nextOutput := 0, endOfLastWrite := none } p1) p2).nextOutput = 0 := by
    rw [receive_nextOutput]
    exact n1
  have hj2 := needsJitterBuffer_false_of n2 e2 (by decide)
  have hjj2 : ¬ needsJitterBuffer (receiveAudioViaUDP (receiveAudioViaUDP
      { buffer := store, nextOutput := 0, endOfLastWrite := none } p1) p2) = true := by
    simp [hj2]
  have cp2 : copyToPointer (receiveAudioViaUDP (receiveAudioViaUDP
      { buffer := store, nextOutput := 0, endOfLastWrite := none } p1) p2) = 1090 := by
    unfold copyToPointer
    rw [if_neg hjj2, e2]
    rfl
  have ov2 : bufferSampleOverlap (receiveAudioViaUDP (receiveAudioViaUDP
      { buffer := store, nextOutput := 0, endOfLastWrite := none } p1) p2) = 0 := by
    unfold bufferSampleOverlap
    rw [if_neg hjj2, cp2]
    decide
  have e3 : (receiveAudioViaUDP (receiveAudioViaUDP (receiveAudioViaUDP
      { buffer := store, nextOutput := 0, endOfLastWrite := none } p1) p2) p3).endOfLastWrite
      = some 1602 := by
    rw [receive_append_frontier p3 e2 hj2 ov2]
    decide
  have n3 : (receiveAudioViaUDP (receiveAudioViaUDP (receiveAudioViaUDP
      { buffer := store, nextOutput := 0, endOfLastWrite := none } p1) p2) p3).nextOutput = 0 := by
    rw [receive_nextOutput]
    exact n2
  have hj3 := needsJitterBuffer_true_of n3 e3 (by decide)
  have e4 : (receiveAudioViaUDP (receiveAudioViaUDP (receiveAudioViaUDP (receiveAudioViaUDP
      { buffer := store, nextOutput := 0, endOfLastWrite := none } p1) p2) p3) p4).endOfLastWrite
      = some 578 := by
    rw [receive_cushion_frontier p4 hj3]
    decide
  exact ⟨e1, e2, e3, hj3, e4⟩

/-- C7 witness: the general cushion-exactness part applied at a concrete
empty buffer and packet, and the scenario applied at concrete packets. -/
theorem C7_cushion_witness :
    (receiveAudioViaUDP { buffer := fun _ => 3, nextOutput := 0, endOfLastWrite := none }
      (fun n => (n : Int))).buffer 65 = 0 ∧
    (receiveAudioViaUDP { buffer := fun _ => 3, nextOutput := 0, endOfLastWrite := none }
      (fun n => (n : Int))).buffer (jitterBufferSamples + 511) = 511 ∧
    (receiveAudioViaUDP (receiveAudioViaUDP (receiveAudioViaUDP (receiveAudioViaUDP
      { buffer := fun _ => 3, nextOutput := 0, endOfLastWrite := none }
      (fun _ => 1)) (fun _ => 2)) (fun _ => 4)) (fun _ => 8)).endOfLastWrite = some 578 :=
  ⟨(C7_cushion_exactness_and_scenario.1 _ (fun n => (n : Int)) (by decide)).1 65 (by decide),
   (C7_cushion_exactness_and_scenario.1 _ (fun n => (n : Int)) (by decide)).2 511 (by decide),
   (C7_cushion_exactness_and_scenario.2.2.2 (fun _ => 3)
      (fun _ => 1) (fun _ => 2) (fun _ => 4) (fun _ => 8)).2.2.2.2⟩

/-- C5: in mode A, when the cursor is advanced and the remaining distance
from the advanced read cursor to the write frontier drops below one frame,
the callback unsets the frontier and reports starvation; with the frontier
unset every callback leaves the buffer untouched and emits silence on both
channels, and a receive on the unset-frontier state re-injects a cushion
(sets the frontier again). -/
theorem C5_starvation_silence :
    (∀ (rb : AudioRingBuffer) (e : Nat), rb.endOfLastWrite = some e →
      diffPos e (advanceOutput rb.nextOutput) < BUFFER_LENGTH_SAMPLES →
      (audioCallback rb).ringBuffer.endOfLastWrite = none ∧
      (audioCallback rb).starved = true) ∧
    (∀ rb : AudioRingBuffer, rb.endOfLastWrite = none →
      (audioCallback rb).ringBuffer = rb ∧
      (audioCallback rb).starved = false ∧
      (∀ i, (audioCallback rb).outputLeft i = 0 ∧ (audioCallback rb).outputRight i = 0)) ∧
    (∀ (rb : AudioRingBuffer) (pkt : Nat → Int), rb.endOfLastWrite = none →
      (receiveAudioViaUDP rb pkt).endOfLastWrite =
        some (PACKET_LENGTH_SAMPLES + jitterBufferSamples)) := by
  refine ⟨?_, ?_, ?_⟩
  · intro rb e he hd
    constructor
    · simp only [audioCallback, he]
      simp [diffLastWriteNextOutput, hd]
    · simp only [audioCallback, he]
      simp [diffLastWriteNextOutput, hd]
  · intro rb he
    refine ⟨?_, ?_, fun i => ⟨?_, ?_⟩⟩ <;> simp [audioCallback, he]
  · intro rb pkt he
    exact receive_cushion_frontier pkt (needsJitterBuffer_none he)

/-- C5 witness: a concrete starving state (frontier 578, cursor 0: after the
advance to 512 only 66 samples remain), a concrete unset-frontier callback,
and a concrete unset-frontier receive. -/
theorem C5_starvation_witness :
    (audioCallback
      { buffer := fun _ => 0, nextOutput := 0, endOfLastWrite := some 578 }).ringBuffer.endOfLastWrite
      = none ∧
    (audioCallback
      { buffer := fun _ => 0, nextOutput := 0, endOfLastWrite := some 578 }).starved = true ∧
    (audioCallback
      { buffer := fun _ => 2, nextOutput := 512, endOfLastWrite := none }).outputLeft 7 = 0 ∧
    (receiveAudioViaUDP { buffer := fun _ => 2, nextOutput := 512, endOfLastWrite := none }
      (fun _ => 9)).endOfLastWrite = some (PACKET_LENGTH_SAMPLES + jitterBufferSamples) :=
  ⟨(C5_starvation_silence.1 _ 578 rfl (by decide)).1,
   (C5_starvation_silence.1 _ 578 rfl (by decide)).2,
   ((C5_starvation_silence.2.1 _ rfl).2.2 7).1,
   C5_starvation_silence.2.2 _ (fun _ => 9) rfl⟩

/-- C8: in mode A with the frontier set, over the cursor states reachable in
operation (read cursor frame-aligned inside the store, frontier inside the
store at 66 past a frame boundary), the silent tail is non-zero exactly when
the frontier leads the read cursor by less than one frame (the wrapped-lead
case cannot produce a lead below one frame for such states, so the raw
pointer comparison in the code agrees with the mod-capacity lead); the
emitted frame consists of frameSize - silentTail samples copied from the
read cursor followed by silence, identically on both channels. -/
theorem C8_silent_tail (rb : AudioRingBuffer) (e : Nat)
    (hn1 : rb.nextOutput < RING_BUFFER_SIZE_SAMPLES)
    (hn2 : rb.nextOutput % BUFFER_LENGTH_SAMPLES = 0)
    (he : rb.endOfLastWrite = some e)
    (he1 : e < RING_BUFFER_SIZE_SAMPLES)
    (he2 : e % BUFFER_LENGTH_SAMPLES = jitterBufferSamples) :
    (silentTailOf e rb.nextOutput ≠ 0 ↔
      diffPos e rb.nextOutput < BUFFER_LENGTH_SAMPLES) ∧
    (∀ i, i < BUFFER_LENGTH_SAMPLES - silentTailOf e rb.nextOutput →
      (audioCallback rb).outputLeft i = rb.buffer (rb.nextOutput + i)) ∧
    (∀ i, BUFFER_LENGTH_SAMPLES - silentTailOf e rb.nextOutput ≤ i →
      (audioCallback rb).outputLeft i = 0) ∧
    (∀ i, (audioCallback rb).outputRight i = (audioCallback rb).outputLeft i) := by
  refine ⟨?_, ?_, ?_, ?_⟩
  · rw [RING_BUFFER_SIZE_SAMPLES_eq] at hn1 he1
    rw [BUFFER_LENGTH_SAMPLES_eq] at hn2
    rw [BUFFER_LENGTH_SAMPLES_eq, jitterBufferSamples_eq] at he2
    simp only [silentTailOf, diffPos, BUFFER_LENGTH_SAMPLES_eq, RING_BUFFER_SIZE_SAMPLES_eq]
    split_ifs with h <;> omega
  · intro i hi
    simp only [audioCallback, he]
    simp [hi]
  · intro i hi
    have hni : ¬ i < BUFFER_LENGTH_SAMPLES - silentTailOf e rb.nextOutput := by omega
    simp only [audioCallback, he]
    simp [hni]
  · intro i
    simp only [audioCallback, he]

/-- C8 witness: cursor 1024, frontier 1090; the lead is 66 < 512, the silent
tail is 446 and the emitted frame is 66 copied samples then silence. -/
theorem C8_silent_tail_witness :
    silentTailOf 1090 1024 ≠ 0 ∧
    (audioCallback
      { buffer := fun k => (k : Int), nextOutput := 1024, endOfLastWrite := some 1090 }).outputLeft 10
      = 1034 ∧
    (audioCallback
      { buffer := fun k => (k : Int), nextOutput := 1024, endOfLastWrite := some 1090 }).outputLeft 100
      = 0 :=
  ⟨(C8_silent_tail
      { buffer := fun k => (k : Int), nextOutput := 1024, endOfLastWrite := some 1090 } 1090
      (by decide) (by decide) rfl (by decide) (by decide)).1.mpr (by decide),
   by
    exact (C8_silent_tail
      { buffer := fun k => (k : Int), nextOutput := 1024, endOfLastWrite := some 1090 } 1090
      (by decide) (by decide) rfl (by decide) (by decide)).2.1 10 (by decide),
   (C8_silent_tail
      { buffer := fun k => (k : Int), nextOutput := 1024, endOfLastWrite := some 1090 } 1090
      (by decide) (by decide) rfl (by decide) (by decide)).2.2.1 100 (by decide)⟩

/-- C10: in mode A the read cursor stays frame-aligned: from any
frame-aligned cursor inside the store, the callback leaves the cursor
frame-aligned inside the store, advances it (when the frontier is set) to
advanceOutput, resetting to 0 exactly when it reaches capacity, and every
index the unsplit frame copy reads lies inside the store. -/
theorem C10_cursor_alignment (rb : AudioRingBuffer)
    (hn1 : rb.nextOutput < RING_BUFFER_SIZE_SAMPLES)
    (hn2 : rb.nextOutput % BUFFER_LENGTH_SAMPLES = 0) :
    ((audioCallback rb).ringBuffer.nextOutput < RING_BUFFER_SIZE_SAMPLES ∧
     (audioCallback rb).ringBuffer.nextOutput % BUFFER_LENGTH_SAMPLES = 0) ∧
    (∀ e, rb.endOfLastWrite = some e →
      (audioCallback rb).ringBuffer.nextOutput = advanceOutput rb.nextOutput ∧
      ((audioCallback rb).ringBuffer.nextOutput = 0 ↔
        rb.nextOutput + BUFFER_LENGTH_SAMPLES = RING_BUFFER_SIZE_SAMPLES)) ∧
    (∀ e, rb.endOfLastWrite = some e →
      ∀ i, i < BUFFER_LENGTH_SAMPLES - silentTailOf e rb.nextOutput →
        rb.nextOutput + i < RING_BUFFER_SIZE_SAMPLES) := by
  rw [RING_BUFFER_SIZE_SAMPLES_eq] at hn1
  rw [BUFFER_LENGTH_SAMPLES_eq] at hn2
  refine ⟨?_, ?_, ?_⟩
  · cases he : rb.endOfLastWrite with
    | none =>
      simp only [audioCallback, he]
      constructor
      · rw [RING_BUFFER_SIZE_SAMPLES_eq]
        exact hn1
      · rw [BUFFER_LENGTH_SAMPLES_eq]
        exact hn2
    | some e =>
      simp only [audioCallback, he, advanceOutput,
        BUFFER_LENGTH_SAMPLES_eq, RING_BUFFER_SIZE_SAMPLES_eq]
      constructor
      · split <;> omega
      · split <;> omega
  · intro e he
    simp only [audioCallback, he, advanceOutput,
      BUFFER_LENGTH_SAMPLES_eq, RING_BUFFER_SIZE_SAMPLES_eq]
    constructor
    · trivial
    · split <;> omega
  · intro e he i hi
    rw [BUFFER_LENGTH_SAMPLES_eq] at hi
    rw [RING_BUFFER_SIZE_SAMPLES_eq]
    revert hi
    simp only [silentTailOf, BUFFER_LENGTH_SAMPLES_eq]
    split_ifs with h <;> omega

/-- C10 witness: cursor 1536 with frontier 1602 reaches capacity on the
advance and is reset to 0; the copied indices stay inside the store. -/
theorem C10_cursor_alignment_witness :
    (audioCallback
      { buffer := fun _ => 0, nextOutput := 1536, endOfLastWrite := some 1602 }).ringBuffer.nextOutput
      < RING_BUFFER_SIZE_SAMPLES ∧
    (audioCallback
      { buffer := fun _ => 0, nextOutput := 1536, endOfLastWrite := some 1602 }).ringBuffer.nextOutput
      = 0 ∧
    1536 + 5 < RING_BUFFER_SIZE_SAMPLES :=
  ⟨(C10_cursor_alignment
      { buffer := fun _ => 0, nextOutput := 1536, endOfLastWrite := some 1602 }
      (by decide) (by decide)).1.1,
   by
    exact ((C10_cursor_alignment
      { buffer := fun _ => 0, nextOutput := 1536, endOfLastWrite := some 1602 }
      (by decide) (by decide)).2.1 1602 rfl).2.mpr (by decide),
   by
    exact (C10_cursor_alignment
      { buffer := fun _ => 0, nextOutput := 1536, endOfLastWrite := some 1602 }
      (by decide) (by decide)).2.2 1602 rfl 5 (by decide)⟩

/- Mode B, positioned-synthesis branch of audioCallback (Audio.cpp:133-183).
The float arithmetic of the source is modelled over the reals (the int16
truncation of the per-sample scaling is idealised away); sample stores are
total functions from indices to real sample values. -/

noncomputable def AMPLITUDE_RATIO_AT_90 : ℝ := 0.5

/-- Frame read with wraparound on the source's own length
(Audio.cpp:141-151): direct copy when one frame fits before the end of the
source, otherwise head up to the source end then tail from the source
start. -/
noncomputable def readFrame (sourceData : Nat → ℝ) (lengthInSamples samplePointer i : Nat) : ℝ :=
  if BUFFER_LENGTH_SAMPLES ≤ lengthInSamples - samplePointer then
    sourceData (samplePointer + i)
  else if i < lengthInSamples - samplePointer then
    sourceData (samplePointer + i)
  else
    sourceData (i - (lengthInSamples - samplePointer))

/-- History index for the first numSamplesDelay trailing samples
(Audio.cpp:174-178): startPointer - numSamplesDelay + i, wrapped by adding
the source length when negative. -/
def trailingHistoryIndex (lengthInSamples samplePointer numSamplesDelay i : Nat) : Nat :=
  if samplePointer + i < numSamplesDelay then
    samplePointer + i + lengthInSamples - numSamplesDelay
  else
    samplePointer + i - numSamplesDelay

/-- Leading-ear contribution of one source at output index i
(Audio.cpp:168-169): the frame sample scaled by
distanceAmpRatio / NUM_AUDIO_SOURCES. -/
noncomputable def mixLeading (sourceData : Nat → ℝ) (lengthInSamples samplePointer : Nat)
    (dAmp : ℝ) (i : Nat) : ℝ :=
  readFrame sourceData lengthInSamples samplePointer i * (dAmp / (NUM_AUDIO_SOURCES : ℝ))

/-- Trailing-ear contribution of one source at output index i
(Audio.cpp:171-181).  For i ≥ numSamplesDelay the code adds
samplesToQueue[i - numSamplesDelay], which carries only the
distanceAmpRatio / NUM_AUDIO_SOURCES scaling; only the i < numSamplesDelay
history branch multiplies by phaseAmpRatio. -/
noncomputable def mixTrailing (sourceData : Nat → ℝ) (lengthInSamples samplePointer : Nat)
    (dAmp pAmp : ℝ) (numSamplesDelay i : Nat) : ℝ :=
  if numSamplesDelay ≤ i then
    readFrame sourceData lengthInSamples samplePointer (i - numSamplesDelay) *
      (dAmp / (NUM_AUDIO_SOURCES : ℝ))
  else
    sourceData (trailingHistoryIndex lengthInSamples samplePointer numSamplesDelay i) *
      (dAmp * pAmp / (NUM_AUDIO_SOURCES : ℝ))

/-- Planar distance of Audio.cpp:153 on the (x, z) plane. -/
noncomputable def planarDistance (headPos sourcePos : ℝ × ℝ) : ℝ :=
  Real.sqrt ((-headPos.1 - sourcePos.1) ^ 2 + (-headPos.2 - sourcePos.2) ^ 2)

/-- distanceAmpRatio of Audio.cpp:154: 0.5 ^ cbrt(distance * 10), with the
cube root written as the real power 1/3. -/
noncomputable def distanceAmpRatio (distance : ℝ) : ℝ :=
  (0.5 : ℝ) ^ ((distance * 10) ^ ((1 : ℝ) / 3))

/-- sinRatio of Audio.cpp:157: sqrt |sin angle|. -/
noncomputable def sinRatio (angleToSource : ℝ) : ℝ :=
  Real.sqrt |Real.sin angleToSource|

/-- numSamplesDelay of Audio.cpp:158: the float 20 * sinRatio truncated to
int (the value is nonnegative, so truncation is the floor). -/
noncomputable def numSamplesDelay (angleToSource : ℝ) : Nat :=
  (⌊(PHASE_DELAY_AT_90 : ℝ) * sinRatio angleToSource⌋).toNat

/-- phaseAmpRatio of Audio.cpp:160: 1 - 0.5 * sinRatio. -/
noncomputable def phaseAmpRatio (angleToSource : ℝ) : ℝ :=
  1 - AMPLITUDE_RATIO_AT_90 * sinRatio angleToSource

theorem planarDistance_nonneg (headPos sourcePos : ℝ × ℝ) :
    0 ≤ planarDistance headPos sourcePos :=
  Real.sqrt_nonneg _

theorem sinRatio_pi_div_two : sinRatio (Real.pi / 2) = 1 := by
  rw [sinRatio, Real.sin_pi_div_two, abs_one, Real.sqrt_one]

theorem sinRatio_zero : sinRatio 0 = 0 := by
  rw [sinRatio, Real.sin_zero, abs_zero, Real.sqrt_zero]

theorem numSamplesDelay_pi_div_two : numSamplesDelay (Real.pi / 2) = 20 := by
  rw [numSamplesDelay, sinRatio_pi_div_two, mul_one]
  norm_num [PHASE_DELAY_AT_90]
  decide

theorem numSamplesDelay_zero : numSamplesDelay 0 = 0 := by
  rw [numSamplesDelay, sinRatio_zero, mul_zero]
  norm_num

theorem phaseAmpRatio_pi_div_two : phaseAmpRatio (Real.pi / 2) = 1 / 2 := by
  rw [phaseAmpRatio, sinRatio_pi_div_two, mul_one, AMPLITUDE_RATIO_AT_90]
  norm_num

/-- C2: the claim says that in mode B the trailing-ear output at index
i ≥ delaySamples is the delayed source sample scaled additionally by
ampRatio = 1 - 0.5 * sinRatio, so that at ±90° (delaySamples = 20,
ampRatio = 1/2) the trailing channel is attenuated by exactly 0.5 relative
to the leading channel.  The code is wrong: the i ≥ numSamplesDelay branch
at Audio.cpp:172 adds samplesToQueue[i - numSamplesDelay], which carries no
phaseAmpRatio factor.  At angle pi/2 with a constant source of value 100 at
unit distanceAmpRatio, the trailing sample at index 20 is 50, equal to the
leading sample at index 0 rather than half of it; the angle-0 part of the
claim (delay 0 and equal channels) does hold. -/
theorem C2_trailing_attenuation_bug :
    numSamplesDelay (Real.pi / 2) = 20 ∧
    numSamplesDelay 0 = 0 ∧
    phaseAmpRatio (Real.pi / 2) = 1 / 2 ∧
    (∀ (src : Nat → ℝ) (len sp : Nat) (dAmp pAmp : ℝ) (i : Nat),
      mixTrailing src len sp dAmp pAmp (numSamplesDelay 0) i = mixLeading src len sp dAmp i) ∧
    mixTrailing (fun _ => 100) 1000 0 1 (phaseAmpRatio (Real.pi / 2))
      (numSamplesDelay (Real.pi / 2)) 20 = 50 ∧
    mixLeading (fun _ => 100) 1000 0 1 0 = 50 ∧
    ¬ mixTrailing (fun _ => 100) 1000 0 1 (phaseAmpRatio (Real.pi / 2))
        (numSamplesDelay (Real.pi / 2)) 20
      = AMPLITUDE_RATIO_AT_90 * mixLeading (fun _ => 100) 1000 0 1 0 := by
  have h20 := numSamplesDelay_pi_div_two
  have h0 := numSamplesDelay_zero
  have hT : mixTrailing (fun _ => (100:ℝ)) 1000 0 1 (phaseAmpRatio (Real.pi / 2))
      (numSamplesDelay (Real.pi / 2)) 20 = 50 := by
    rw [h20, mixTrailing]
    norm_num [readFrame, BUFFER_LENGTH_SAMPLES, NUM_AUDIO_SOURCES]
  have hL : mixLeading (fun _ => (100:ℝ)) 1000 0 1 0 = 50 := by
    rw [mixLeading]
    norm_num [readFrame, BUFFER_LENGTH_SAMPLES, NUM_AUDIO_SOURCES]
  refine ⟨h20, h0, phaseAmpRatio_pi_div_two, ?_, hT, hL, ?_⟩
  · intro src len sp dAmp pAmp i
    rw [h0, mixTrailing, mixLeading]
    simp
  · rw [hT, hL, AMPLITUDE_RATIO_AT_90]
    norm_num

/-- C9: the distance attenuation 0.5 ^ cbrt(distance * 10) is strictly
decreasing in the (nonnegative) planar distance. -/
theorem C9_distance_attenuation_strict_mono (d1 d2 : ℝ)
    (h0 : 0 ≤ d1) (h12 : d1 < d2) :
    distanceAmpRatio d2 < distanceAmpRatio d1 := by
  unfold distanceAmpRatio
  have hexp : (d1 * 10) ^ ((1:ℝ)/3) < (d2 * 10) ^ ((1:ℝ)/3) :=
    Real.rpow_lt_rpow (by linarith) (by linarith) (by norm_num)
  exact Real.rpow_lt_rpow_of_exponent_gt (by norm_num) (by norm_num) hexp

/-- C9 witness: the attenuation at distance 1 is below the attenuation at
distance 0. -/
theorem C9_distance_attenuation_witness :
    distanceAmpRatio 1 < distanceAmpRatio 0 :=
  C9_distance_attenuation_strict_mono 0 1 le_rfl one_pos

/- Session lifecycle: Audio::init (Audio.cpp:291-344).  The three
device-library results (Pa_Initialize, Pa_OpenDefaultStream,
Pa_StartStream) are inputs; observable outcome is the initialized flag,
the C++ truth value of the returned expression, and whether the error
path (stderr report) ran. -/

def paNoError : Int := 0

structure InitResult where
  initialized : Bool
  returnedTrue : Bool
  errorReported : Bool
deriving DecidableEq

/-- Audio::init error handling (Audio.cpp:291-344).  err is assigned the
results of the library-init and stream-open calls and checked after each;
the Pa_StartStream call at line 334 drops its result, so the check at line
335 reads the stale err from the open step.  The success path executes
`return paNoError`, whose C++ bool value is false. -/
def Audio.init (errPaInit errPaOpen errPaStart : Int) : InitResult :=
  if errPaInit ≠ paNoError then
    { initialized := false, returnedTrue := false, errorReported := true }
  else if errPaOpen ≠ paNoError then
    { initialized := false, returnedTrue := false, errorReported := true }
  else
    let _ := errPaStart
    if errPaOpen ≠ paNoError then
      { initialized := false, returnedTrue := false, errorReported := true }
    else
      { initialized := true, returnedTrue := false, errorReported := false }

/-- C4: the claim says a failure of any of the three start steps (library
init, stream open, stream start) reports the device error, leaves the
session Uninitialized and returns a failure indication, and in particular
that a stream-start failure is detected.  Init and open failures do behave
that way, but the Pa_StartStream result is never assigned to err
(Audio.cpp:334), so a start failure is undetected: the session stays
initialized and no error is reported. -/
theorem C4_start_failure_undetected :
    Audio.init (-1) 0 0
      = { initialized := false, returnedTrue := false, errorReported := true } ∧
    Audio.init 0 (-1) 0
      = { initialized := false, returnedTrue := false, errorReported := true } ∧
    Audio.init 0 0 (-1)
      = { initialized := true, returnedTrue := false, errorReported := false } ∧
    ¬ (Audio.init 0 0 (-1)).initialized = false := by
  refine ⟨?_, ?_, ?_, ?_⟩ <;> decide
